import Mathlib

/-!
Shallow embedding of the pharmacy inventory backend
(routers/inventory.py, routers/alerts.py, routers/waste.py,
ml_models/forecasting.py, models.py, schemas.py).

The relational store is modelled as lists of records; SQLAlchemy
primary-key row updates become map-by-id updates; an aborted HTTP
request (raise before commit) is modelled as Except.error, under which
the caller keeps the unchanged pre-state, matching the single
commit/rollback boundary of each endpoint.  Python ints are Int/Nat;
Python floats are modelled as exact rationals; dates and datetimes are
modelled as integer day counts.  Display-only fields that no endpoint
reads back (reasoning interpolation details, return_status, purchase
data) are carried or omitted as noted at each definition.
-/

/-- models.py TransactionType enum. -/
inductive TransactionType where
  | IN
  | OUT
  | ADJUSTMENT
  | RETURN
  | EXPIRED
  | DAMAGED
  | RECALLED
deriving DecidableEq

/-- models.py AlertType enum. -/
inductive AlertType where
  | LOW_STOCK
  | STOCK_OUT
  | EXPIRY_WARNING
  | DELAYED_DELIVERY
deriving DecidableEq

/-- models.py Medicine row (fields the verified operations read:
id, sku, name, mrp, is_active; manufacturer/brand/cost/schedule/storage
are never read by the embedded operations and are omitted). -/
structure Medicine where
  id : Nat
  sku : String
  name : String
  mrp : Option ℚ
  is_active : Bool
deriving DecidableEq

/-- models.py Batch row (purchase_date, purchase_price and
return_status are never read by the embedded operations and are
omitted; expiry_date and updated_at are integer day counts). -/
structure Batch where
  id : Nat
  medicine_id : Nat
  batch_number : String
  quantity : Int
  expiry_date : Int
  updated_at : Int
  is_expired : Bool
  is_damaged : Bool
  is_recalled : Bool
  is_returned : Bool
deriving DecidableEq

/-- models.py InventoryTransaction row. -/
structure InventoryTransaction where
  medicine_id : Nat
  batch_id : Option Nat
  transaction_type : TransactionType
  quantity : Int
  unit_price : Option ℚ
  notes : String
  created_by : Nat
  created_at : Int
deriving DecidableEq

/-- models.py Alert row.  Engine-created alerts carry id 0: the store
assigns the real key and no embedded operation reads the id of an
alert it just created. -/
structure Alert where
  id : Nat
  alert_type : AlertType
  medicine_id : Option Nat
  batch_id : Option Nat
  message : String
  severity : String
  is_acknowledged : Bool
  acknowledged_by : Option Nat
  acknowledged_at : Option Int
deriving DecidableEq

/-- schemas.py TransactionCreate: the request body of
POST /transactions.  quantity is a plain int with no constraint. -/
structure TransactionCreate where
  medicine_id : Nat
  batch_id : Option Nat
  transaction_type : TransactionType
  quantity : Int
  unit_price : Option ℚ
  notes : String
deriving DecidableEq

/-- The database: one list per table. -/
structure DB where
  medicines : List Medicine
  batches : List Batch
  transactions : List InventoryTransaction
  alerts : List Alert
deriving DecidableEq

/-- Row update keyed by primary key id (ids are unique in the store, so
this updates the single row the ORM object identifies). -/
def updateBatch (batches : List Batch) (b : Batch) : List Batch :=
  batches.map (fun x => if x.id == b.id then b else x)

/-- Row update for alerts, keyed by primary key id. -/
def updateAlert (alerts : List Alert) (a : Alert) : List Alert :=
  alerts.map (fun x => if x.id == a.id then a else x)

/-- sum(b.quantity for b in medicine.batches if not b.is_expired):
the stock figure used by alerts.check_low_stock and
forecasting.calculate_demand_forecast. -/
def rawStock (batches : List Batch) (mid : Nat) : Int :=
  (((batches.filter (fun b => b.medicine_id == mid && !b.is_expired))).map
    (fun b => b.quantity)).sum

/-- Python int() applied to a nonnegative-or-negative rational:
truncation toward zero (Int.tdiv is T-division). -/
def truncQ (q : ℚ) : Int := Int.tdiv q.num (Int.ofNat q.den)

/-- Python round(x, 2).  Every value this development rounds is an
exact multiple of 1/100, so the tie-breaking convention (Python uses
half-to-even, Mathlib round uses half-up) never comes into play. -/
def round2 (q : ℚ) : ℚ := ((round (q * 100) : ℤ) : ℚ) / 100

/-- The dedupe query of both low-stock sweeps: an unacknowledged alert
of the given type for the given medicine. -/
def isOpenAlertFor (t : AlertType) (mid : Nat) (a : Alert) : Bool :=
  decide (a.medicine_id = some mid ∧ a.alert_type = t ∧ a.is_acknowledged = false)

/-- The dedupe query of the expiry sweep: an unacknowledged
EXPIRY_WARNING alert for the given batch. -/
def isOpenBatchExpiryAlert (bid : Nat) (a : Alert) : Bool :=
  decide (a.batch_id = some bid ∧ a.alert_type = AlertType.EXPIRY_WARNING ∧
          a.is_acknowledged = false)

/-- The InventoryTransaction row POST /transactions appends. -/
def newTransaction (req : TransactionCreate) (userId : Nat) (now : Int) :
    InventoryTransaction :=
  { medicine_id := req.medicine_id
    batch_id := req.batch_id
    transaction_type := req.transaction_type
    quantity := req.quantity
    unit_price := req.unit_price
    notes := req.notes
    created_by := userId
    created_at := now }

/-- routers/inventory.py create_transaction (POST /transactions).
Looks up the medicine, optionally the batch; for OUT rejects when the
batch holds less than the requested quantity, otherwise decrements; for
IN increments; always appends exactly one transaction row; mutation and
row live in the same commit, so Except.ok carries both and Except.error
carries neither. -/
def create_transaction (db : DB) (req : TransactionCreate) (userId : Nat)
    (now : Int) : Except String DB :=
  match db.medicines.find? (fun m => m.id == req.medicine_id) with
  | none => Except.error "Medicine not found"
  | some _ =>
    match req.batch_id with
    | none =>
      Except.ok { db with
        transactions := db.transactions ++ [newTransaction req userId now] }
    | some bid =>
      match db.batches.find? (fun b => b.id == bid) with
      | none => Except.error "Batch not found"
      | some batch =>
        match req.transaction_type with
        | TransactionType.OUT =>
          if batch.quantity < req.quantity then
            Except.error "Insufficient stock"
          else
            Except.ok { db with
              batches := updateBatch db.batches
                { batch with quantity := batch.quantity - req.quantity }
              transactions := db.transactions ++ [newTransaction req userId now] }
        | TransactionType.IN =>
          Except.ok { db with
            batches := updateBatch db.batches
              { batch with quantity := batch.quantity + req.quantity }
            transactions := db.transactions ++ [newTransaction req userId now] }
        | _ =>
          Except.ok { db with
            transactions := db.transactions ++ [newTransaction req userId now] }

/-- routers/waste.py mark_batch_expired (POST /mark-expired).  Sets
is_expired and zeroes the quantity first; the transaction row then
reads batch.quantity AFTER the zeroing, so the recorded quantity is
always 0, as in the source. -/
def mark_batch_expired (db : DB) (batch_id : Nat) (userId : Nat) (now : Int) :
    Except String DB :=
  match db.batches.find? (fun b => b.id == batch_id) with
  | none => Except.error "Batch not found"
  | some batch =>
    let batch2 := { batch with is_expired := true, quantity := 0 }
    Except.ok { db with
      batches := updateBatch db.batches batch2
      transactions := db.transactions ++
        [{ medicine_id := batch.medicine_id
           batch_id := some batch.id
           transaction_type := TransactionType.EXPIRED
           quantity := batch2.quantity
           unit_price := none
           notes := "Marked as expired"
           created_by := userId
           created_at := now }] }

/-- routers/waste.py mark_batch_damaged (POST /mark-damaged).  Rejects
when the damaged quantity exceeds the current batch quantity, otherwise
sets is_damaged, subtracts the quantity, and appends one DAMAGED row
carrying the removed amount. -/
def mark_batch_damaged (db : DB) (batch_id : Nat) (quantity : Int)
    (userId : Nat) (now : Int) : Except String DB :=
  match db.batches.find? (fun b => b.id == batch_id) with
  | none => Except.error "Batch not found"
  | some batch =>
    if quantity > batch.quantity then
      Except.error "Damaged quantity exceeds available stock"
    else
      Except.ok { db with
        batches := updateBatch db.batches
          { batch with is_damaged := true, quantity := batch.quantity - quantity }
        transactions := db.transactions ++
          [{ medicine_id := batch.medicine_id
             batch_id := some batch.id
             transaction_type := TransactionType.DAMAGED
             quantity := quantity
             unit_price := none
             notes := "Marked as damaged"
             created_by := userId
             created_at := now }] }

/-- routers/alerts.py acknowledge_alert (POST /alerts/id/acknowledge).
Unconditionally sets is_acknowledged, acknowledged_by and
acknowledged_at from the current caller, whatever their prior values. -/
def acknowledge_alert (db : DB) (alert_id : Nat) (userId : Nat) (now : Int) :
    Except String DB :=
  match db.alerts.find? (fun a => a.id == alert_id) with
  | none => Except.error "Alert not found"
  | some alert =>
    Except.ok { db with
      alerts := updateAlert db.alerts
        { alert with
          is_acknowledged := true
          acknowledged_by := some userId
          acknowledged_at := some now } }

/-- Severity ladder of alerts.py check_low_stock:
critical if the stock is 0, high if below 10, else medium. -/
def lowStockSeverity (total : Int) : String :=
  if total = 0 then "critical" else if total < 10 then "high" else "medium"

/-- Alert type chosen by alerts.py check_low_stock:
STOCK_OUT if the stock is 0, else LOW_STOCK. -/
def lowStockAlertType (total : Int) : AlertType :=
  if total = 0 then AlertType.STOCK_OUT else AlertType.LOW_STOCK

/-- The Alert row alerts.py check_low_stock creates for one medicine. -/
def lowStockAlert (m : Medicine) (total : Int) : Alert :=
  { id := 0
    alert_type := lowStockAlertType total
    medicine_id := some m.id
    batch_id := none
    message := m.name ++ " (" ++ m.sku ++ ") has low stock: " ++
               toString total ++ " units remaining"
    severity := lowStockSeverity total
    is_acknowledged := false
    acknowledged_by := none
    acknowledged_at := none }

/-- One loop iteration of alerts.py check_low_stock: skip the medicine
when an unacknowledged LOW_STOCK alert is already open for it (the
dedupe query names LOW_STOCK even when the alert about to be created is
STOCK_OUT), otherwise create one alert when stock is below 20. -/
def lowStockStep (batches : List Batch) (alerts : List Alert) (m : Medicine) :
    List Alert :=
  let total := rawStock batches m.id
  if alerts.any (isOpenAlertFor AlertType.LOW_STOCK m.id) then alerts
  else if total < 20 then alerts ++ [lowStockAlert m total]
  else alerts

/-- The loop of alerts.py check_low_stock over the medicine list;
alerts added for earlier medicines are visible to the dedupe query for
later ones (session autoflush). -/
def lowStockSweep (batches : List Batch) (meds : List Medicine)
    (alerts : List Alert) : List Alert :=
  match meds with
  | [] => alerts
  | m :: rest => lowStockSweep batches rest (lowStockStep batches alerts m)

/-- routers/alerts.py check_low_stock (POST /alerts/check-low-stock):
runs the sweep over all active medicines. -/
def check_low_stock (db : DB) : DB :=
  { db with
    alerts := lowStockSweep db.batches
      (db.medicines.filter (fun m => m.is_active)) db.alerts }

/-- Batches feeding the grouped stock query of
inventory.py check_low_stock_alerts: quantity positive, not expired,
belonging to the medicine (inner join, so medicines with no such batch
produce no group at all). -/
def groupedBatches (batches : List Batch) (mid : Nat) : List Batch :=
  batches.filter (fun b => b.medicine_id == mid && b.quantity > 0 && !b.is_expired)

/-- routers/inventory.py check_low_stock_alerts (post-upload sweep):
group stock by medicine over positive-quantity non-expired batches;
below 20 and with no open LOW_STOCK alert, create one LOW_STOCK alert
with severity high if the total is 0 (unreachable through the join)
else medium.  No is_active filter and never STOCK_OUT, unlike
alerts.py check_low_stock. -/
def check_low_stock_alerts (db : DB) : DB :=
  let grouped := db.medicines.filter
    (fun m => !(groupedBatches db.batches m.id).isEmpty)
  { db with
    alerts := grouped.foldl (fun alerts m =>
      let total := ((groupedBatches db.batches m.id).map (fun b => b.quantity)).sum
      if total < 20 then
        if alerts.any (isOpenAlertFor AlertType.LOW_STOCK m.id) then alerts
        else alerts ++
          [{ id := 0
             alert_type := AlertType.LOW_STOCK
             medicine_id := some m.id
             batch_id := none
             message := m.name ++ " is running low (Stock: " ++ toString total ++ ")"
             severity := if total = 0 then "high" else "medium"
             is_acknowledged := false
             acknowledged_by := none
             acknowledged_at := none }]
      else alerts) db.alerts }

/-- Medicine name lookup used when an alert message interpolates
batch.medicine.name (the foreign key always resolves in the store). -/
def medicineName (medicines : List Medicine) (mid : Nat) : String :=
  ((medicines.find? (fun m => m.id == mid)).map (fun m => m.name)).getD ""

/-- One batch step of inventory.py check_expiry_alerts: skip when an
unacknowledged EXPIRY_WARNING alert for this batch is already open,
otherwise create one alert when the expiry is today or later, severity
high within 30 days else medium. -/
def expiryStep (medicines : List Medicine) (today : Int) (alerts : List Alert)
    (b : Batch) : List Alert :=
  if alerts.any (isOpenBatchExpiryAlert b.id) then alerts
  else
    let days_until_expiry := b.expiry_date - today
    if days_until_expiry ≥ 0 then
      alerts ++
        [{ id := 0
           alert_type := AlertType.EXPIRY_WARNING
           medicine_id := some b.medicine_id
           batch_id := some b.id
           message := medicineName medicines b.medicine_id ++ " (Batch: " ++
                      b.batch_number ++ ") expires in " ++
                      toString days_until_expiry ++ " days"
           severity := if days_until_expiry ≤ 30 then "high" else "medium"
           is_acknowledged := false
           acknowledged_by := none
           acknowledged_at := none }]
    else alerts

/-- routers/inventory.py check_expiry_alerts: for each lookahead window
of settings.EXPIRY_ALERT_DAYS (30, 60, 90), walk the non-expired
positive-quantity batches whose expiry falls within the window; alerts
added under an earlier window are visible to the dedupe query of a
later one (session autoflush), so each batch gets at most one alert per
run. -/
def check_expiry_alerts (db : DB) (today : Int) : DB :=
  { db with
    alerts := [(30 : Int), 60, 90].foldl (fun alerts days =>
      (db.batches.filter (fun b =>
        b.expiry_date ≤ today + days && !b.is_expired && b.quantity > 0)).foldl
        (expiryStep db.medicines today) alerts) db.alerts }

/-- The result record of ml_models/forecasting.py
calculate_demand_forecast.  The reasoning strings of the source
interpolate the computed figures; the numeric formatting is
display-only and the embedded strings keep only the fixed prefix. -/
structure ForecastResult where
  forecasted_demand : ℚ
  confidence_score : ℚ
  reorder_point : Int
  recommended_quantity : Int
  reasoning : String
deriving DecidableEq

/-- The trailing-window OUT transactions of
calculate_demand_forecast: same medicine, type OUT, created within the
last 90 days. -/
def recentOutTransactions (db : DB) (medicine_id : Nat) (now : Int) :
    List InventoryTransaction :=
  db.transactions.filter (fun t =>
    t.medicine_id == medicine_id &&
    decide (t.transaction_type = TransactionType.OUT) &&
    now - 90 ≤ t.created_at)

/-- ml_models/forecasting.py calculate_demand_forecast.  With no OUT
transactions in the window it falls back to the conservative heuristic
over current raw stock; otherwise it derives average daily demand over
the 90-day window (days_covered is exactly 90 since the cutoff is
now minus 90 days), the confidence formula, the reorder point and the
recommended quantity, rounding demand and confidence to 2 decimals and
flooring reorder point at 1 and recommended quantity at 0. -/
def calculate_demand_forecast (db : DB) (medicine_id : Nat)
    (horizon_days : Int) (now : Int) : ForecastResult :=
  match db.medicines.find? (fun m => m.id == medicine_id) with
  | none =>
    { forecasted_demand := 0
      confidence_score := 0
      reorder_point := 0
      recommended_quantity := 0
      reasoning := "Medicine not found" }
  | some _ =>
    let transactions := recentOutTransactions db medicine_id now
    if transactions.isEmpty then
      let current_stock := rawStock db.batches medicine_id
      { forecasted_demand := (current_stock : ℚ) * (3 / 10)
        confidence_score := 3 / 10
        reorder_point := max 10 (truncQ ((current_stock : ℚ) * (2 / 10)))
        recommended_quantity := max 20 (truncQ ((current_stock : ℚ) * (5 / 10)))
        reasoning := "No historical data available. Using conservative estimates." }
    else
      let total_demand : Int := (transactions.map (fun t => t.quantity)).sum
      let days_covered : Int := 90
      let avg_daily_demand : ℚ :=
        if days_covered > 0 then (total_demand : ℚ) / (days_covered : ℚ) else 0
      let forecasted_demand := avg_daily_demand * (horizon_days : ℚ)
      let confidence_score : ℚ :=
        min (95 / 100) (1 / 2 + (transactions.length : ℚ) / 100)
      let lead_time_days : ℚ := 7
      let safety_stock_multiplier : ℚ := 3 / 2
      let reorder_point : Int :=
        truncQ (avg_daily_demand * lead_time_days * safety_stock_multiplier)
      let current_stock := rawStock db.batches medicine_id
      let recommended_quantity : Int :=
      max (truncQ (forecasted_demand * (3 / 10)))
          (if current_stock < reorder_point then reorder_point - current_stock
           else 0)
      { forecasted_demand := round2 forecasted_demand
        confidence_score := round2 confidence_score
        reorder_point := max 1 reorder_point
        recommended_quantity := max 0 recommended_quantity
        reasoning := "Based on historical transactions over 90 days." }

/-- One bucket of routers/waste.py get_waste_analytics. -/
structure WasteBucket where
  quantity : Int
  value : ℚ
  count : Nat
deriving DecidableEq

/-- The analytics payload of routers/waste.py get_waste_analytics. -/
structure WasteAnalytics where
  expired : WasteBucket
  damaged : WasteBucket
  recalled : WasteBucket
  returned : WasteBucket
  total_quantity : Int
  total_value : ℚ
  wastage_rate_percent : ℚ
deriving DecidableEq

/-- batch.medicine.mrp or 0: the joined MRP of a batch, 0 when the
medicine has no MRP (Python uses "or 0"; the SQL sum drops NULL
products, which contributes the same 0). -/
def medicineMrp (medicines : List Medicine) (mid : Nat) : ℚ :=
  (((medicines.find? (fun m => m.id == mid)).bind (fun m => m.mrp))).getD 0

/-- Quantity, value and count aggregation of one waste bucket. -/
def bucketOf (medicines : List Medicine) (bs : List Batch) : WasteBucket :=
  { quantity := (bs.map (fun b => b.quantity)).sum
    value := (bs.map (fun b =>
      (b.quantity : ℚ) * medicineMrp medicines b.medicine_id)).sum
    count := bs.length }

/-- The wastage-rate denominator of get_waste_analytics: total value
over batches that are neither expired nor damaged nor recalled
(is_returned is not excluded). -/
def sellableInventoryValue (db : DB) : ℚ :=
  ((db.batches.filter (fun b =>
    !b.is_expired && !b.is_damaged && !b.is_recalled)).map (fun b =>
      (b.quantity : ℚ) * medicineMrp db.medicines b.medicine_id)).sum

/-- routers/waste.py get_waste_analytics (GET /waste/analytics, no
category filter, explicit window): four independent flag buckets
(expired keyed on expiry_date in range, the others on updated_at in
range), total value = expired + damaged + recalled with returned
excluded, total quantity of all four, and the wastage rate as a
2-decimal percentage, 0 unless the denominator is positive. -/
def get_waste_analytics (db : DB) (start_date end_date : Int) : WasteAnalytics :=
  let expired_batches := db.batches.filter (fun b =>
    b.is_expired && start_date ≤ b.expiry_date && b.expiry_date ≤ end_date)
  let damaged_batches := db.batches.filter (fun b =>
    b.is_damaged && start_date ≤ b.updated_at && b.updated_at ≤ end_date)
  let recalled_batches := db.batches.filter (fun b =>
    b.is_recalled && start_date ≤ b.updated_at && b.updated_at ≤ end_date)
  let returned_batches := db.batches.filter (fun b =>
    b.is_returned && start_date ≤ b.updated_at && b.updated_at ≤ end_date)
  let expired := bucketOf db.medicines expired_batches
  let damaged := bucketOf db.medicines damaged_batches
  let recalled := bucketOf db.medicines recalled_batches
  let returned := bucketOf db.medicines returned_batches
  let total_waste_value := expired.value + damaged.value + recalled.value
  let total_waste_quantity :=
    expired.quantity + damaged.quantity + recalled.quantity + returned.quantity
  let total_inventory_value := sellableInventoryValue db
  let wastage_rate : ℚ :=
    if total_inventory_value > 0 then
      total_waste_value / total_inventory_value * 100
    else 0
  { expired := expired
    damaged := damaged
    recalled := recalled
    returned := returned
    total_quantity := total_waste_quantity
    total_value := total_waste_value
    wastage_rate_percent := round2 wastage_rate }

/-- Fixture medicine: id 1, active, with an MRP. -/
def med1 : Medicine :=
  { id := 1, sku := "SKU1", name := "Paracetamol", mrp := some 10, is_active := true }

/-- Fixture batch: id 1 of medicine 1 holding 10 units, not expired. -/
def batch10 : Batch :=
  { id := 1, medicine_id := 1, batch_number := "B1", quantity := 10
    expiry_date := 1000, updated_at := 0
    is_expired := false, is_damaged := false, is_recalled := false
    is_returned := false }

/-- Fixture batch: id 1 of medicine 1 holding 5 units, not expired. -/
def batch5 : Batch :=
  { batch10 with quantity := 5, batch_number := "B5" }

/-- Fixture batch: id 1 of medicine 1 holding 50 units, not expired. -/
def batch50 : Batch :=
  { batch10 with quantity := 50, batch_number := "B50" }

/-- Store with one medicine and one batch of 10 units. -/
def dbTen : DB :=
  { medicines := [med1], batches := [batch10], transactions := [], alerts := [] }

/-- Store with one medicine and one batch of 5 units. -/
def dbStock5 : DB :=
  { medicines := [med1], batches := [batch5], transactions := [], alerts := [] }

/-- Store with one medicine and one batch of 50 units. -/
def dbBatch50 : DB :=
  { medicines := [med1], batches := [batch50], transactions := [], alerts := [] }

/-- Store with one active medicine and no batches: raw stock 0. -/
def dbZeroStock : DB :=
  { medicines := [med1], batches := [], transactions := [], alerts := [] }

/-- One OUT transaction of medicine 1 inside the 90-day window of
now = 1000. -/
def txnOut1 : InventoryTransaction :=
  { medicine_id := 1, batch_id := none
    transaction_type := TransactionType.OUT, quantity := 5
    unit_price := none, notes := "", created_by := 1, created_at := 995 }

/-- Store with one medicine, no batches and one recent OUT
transaction. -/
def dbOneOut : DB :=
  { medicines := [med1], batches := [], transactions := [txnOut1], alerts := [] }

/-- An alert that has already been acknowledged by user 1 at time 5. -/
def alertAcked : Alert :=
  { id := 1, alert_type := AlertType.LOW_STOCK, medicine_id := some 1
    batch_id := none, message := "m", severity := "medium"
    is_acknowledged := true, acknowledged_by := some 1, acknowledged_at := some 5 }

/-- Store holding only the already-acknowledged alert. -/
def dbAcked : DB :=
  { medicines := [], batches := [], transactions := [], alerts := [alertAcked] }

/-- The empty store. -/
def dbEmpty : DB :=
  { medicines := [], batches := [], transactions := [], alerts := [] }

/-- OUT request against batch 1 for 4 units. -/
def reqOut4 : TransactionCreate :=
  { medicine_id := 1, batch_id := some 1
    transaction_type := TransactionType.OUT, quantity := 4
    unit_price := none, notes := "" }

/-- OUT request against batch 1 for 11 units. -/
def reqOut11 : TransactionCreate :=
  { reqOut4 with quantity := 11 }

/-- OUT request against batch 1 for minus 5 units. -/
def reqOutNeg5 : TransactionCreate :=
  { reqOut4 with quantity := -5 }

/-- C1: for an OUT transaction naming an existing batch of an existing
medicine, the request fails with the InsufficientStock error when the
batch holds less than the requested quantity (Except.error: the single
commit is never reached, so no state changes), and otherwise succeeds
in one atomic state in which the named batch is decremented by exactly
the requested quantity and exactly one OUT transaction row is
appended. -/
theorem create_transaction_out_batch_spec (db : DB) (req : TransactionCreate)
    (userId : Nat) (now : Int) (m : Medicine) (bid : Nat) (b : Batch)
    (hm : db.medicines.find? (fun x => x.id == req.medicine_id) = some m)
    (hb : req.batch_id = some bid)
    (hfind : db.batches.find? (fun x => x.id == bid) = some b)
    (hty : req.transaction_type = TransactionType.OUT) :
    (b.quantity < req.quantity →
      create_transaction db req userId now = Except.error "Insufficient stock") ∧
    (req.quantity ≤ b.quantity →
      create_transaction db req userId now = Except.ok { db with
        batches := updateBatch db.batches
          { b with quantity := b.quantity - req.quantity }
        transactions := db.transactions ++ [newTransaction req userId now] }) := by
  constructor
  · intro h
    simp only [create_transaction, hm, hb, hfind, hty, if_pos h]
  · intro h
    simp only [create_transaction, hm, hb, hfind, hty, if_neg (not_lt.mpr h)]

/-- C1 witness: on the 10-unit batch, requesting 11 fails with
InsufficientStock and requesting 4 leaves 6 units and appends one OUT
row. -/
theorem create_transaction_out_batch_spec_inst :
    create_transaction dbTen reqOut11 1 0 = Except.error "Insufficient stock" ∧
    (create_transaction dbTen reqOut4 1 0).toOption.map (fun d =>
      (d.batches.map (fun b => b.quantity), d.transactions.map (fun t =>
        (t.transaction_type, t.quantity)))) =
      some ([6], [(TransactionType.OUT, 4)]) := by
  constructor
  · exact (create_transaction_out_batch_spec dbTen reqOut11 1 0 med1 1 batch10
      rfl rfl rfl rfl).1 (by decide)
  · rw [(create_transaction_out_batch_spec dbTen reqOut4 1 0 med1 1 batch10
      rfl rfl rfl rfl).2 (by decide)]
    decide

/-- C4: a DAMAGED request on an existing batch fails with the
ExceedsAvailable error when the requested quantity exceeds the current
batch quantity (Except.error: the commit is never reached, so
batch.quantity is unchanged), and otherwise sets is_damaged, reduces
the batch quantity by the given amount and appends exactly one DAMAGED
transaction carrying that amount. -/
theorem mark_batch_damaged_spec (db : DB) (batch_id : Nat) (q : Int)
    (userId : Nat) (now : Int) (b : Batch)
    (hfind : db.batches.find? (fun x => x.id == batch_id) = some b) :
    (b.quantity < q →
      mark_batch_damaged db batch_id q userId now =
        Except.error "Damaged quantity exceeds available stock") ∧
    (q ≤ b.quantity →
      mark_batch_damaged db batch_id q userId now = Except.ok { db with
        batches := updateBatch db.batches
          { b with is_damaged := true, quantity := b.quantity - q }
        transactions := db.transactions ++
          [{ medicine_id := b.medicine_id
             batch_id := some b.id
             transaction_type := TransactionType.DAMAGED
             quantity := q
             unit_price := none
             notes := "Marked as damaged"
             created_by := userId
             created_at := now }] }) := by
  constructor
  · intro h
    simp only [mark_batch_damaged, hfind, if_pos h]
  · intro h
    simp only [mark_batch_damaged, hfind, if_neg (not_lt.mpr h)]

/-- C4 witness: on the 10-unit batch, damaging 11 fails with
ExceedsAvailable and damaging 3 leaves 7 units, sets is_damaged and
appends one DAMAGED row carrying 3. -/
theorem mark_batch_damaged_spec_inst :
    mark_batch_damaged dbTen 1 11 1 0 =
      Except.error "Damaged quantity exceeds available stock" ∧
    (mark_batch_damaged dbTen 1 3 1 0).toOption.map (fun d =>
      (d.batches.map (fun b => (b.quantity, b.is_damaged)),
       d.transactions.map (fun t => (t.transaction_type, t.quantity)))) =
      some ([(7, true)], [(TransactionType.DAMAGED, 3)]) := by
  constructor
  · exact (mark_batch_damaged_spec dbTen 1 11 1 0 batch10 rfl).1 (by decide)
  · rw [(mark_batch_damaged_spec dbTen 1 3 1 0 batch10 rfl).2 (by decide)]
    decide

/-- C10: marking any existing batch expired sets is_expired, zeroes the
batch quantity, and appends exactly one EXPIRED transaction whose
recorded quantity is 0 whatever the batch held before the call, because
the source reads batch.quantity after zeroing it. -/
theorem mark_batch_expired_records_zero (db : DB) (batch_id : Nat)
    (userId : Nat) (now : Int) (b : Batch)
    (hfind : db.batches.find? (fun x => x.id == batch_id) = some b) :
    mark_batch_expired db batch_id userId now = Except.ok { db with
      batches := updateBatch db.batches { b with is_expired := true, quantity := 0 }
      transactions := db.transactions ++
        [{ medicine_id := b.medicine_id
           batch_id := some b.id
           transaction_type := TransactionType.EXPIRED
           quantity := 0
           unit_price := none
           notes := "Marked as expired"
           created_by := userId
           created_at := now }] } := by
  simp only [mark_batch_expired, hfind]

/-- C10 witness: a batch holding 50 units ends with quantity 0,
is_expired set, and one EXPIRED row recording quantity 0. -/
theorem mark_batch_expired_records_zero_inst :
    (mark_batch_expired dbBatch50 1 7 100).toOption.map (fun d =>
      (d.batches.map (fun b => (b.quantity, b.is_expired)),
       d.transactions.map (fun t => (t.transaction_type, t.quantity)))) =
      some ([(0, true)], [(TransactionType.EXPIRED, 0)]) := by
  rw [mark_batch_expired_records_zero dbBatch50 1 7 100 batch50 rfl]
  decide

/-- C9 counterexample: the claim says a second acknowledge call never
changes the recorded actor or timestamp.  On a store whose only alert
is already acknowledged by user 1 at time 5, acknowledging it as user 2
at time 9 succeeds and overwrites both fields. -/
theorem reacknowledge_overwrites_actor :
    dbAcked.alerts.map (fun a => (a.acknowledged_by, a.acknowledged_at)) =
      [(some 1, some 5)] ∧
    (acknowledge_alert dbAcked 1 2 9).toOption.map (fun d =>
      d.alerts.map (fun a => (a.acknowledged_by, a.acknowledged_at))) =
      some [(some 2, some 9)] ∧
    (some 2, (some 9 : Option Int)) ≠ ((some 1 : Option Nat), some 5) := by
  refine ⟨by decide, ?_, by decide⟩
  decide

/-- C9 amended: acknowledgement is unconditional last-write-wins; every
acknowledge call on an existing alert succeeds, sets is_acknowledged,
and overwrites the recorded actor and timestamp with the current
caller and time, whatever the prior acknowledgement state. -/
theorem acknowledge_last_write_wins (db : DB) (alert_id : Nat) (userId : Nat)
    (now : Int) (a : Alert)
    (hfind : db.alerts.find? (fun x => x.id == alert_id) = some a) :
    acknowledge_alert db alert_id userId now = Except.ok { db with
      alerts := updateAlert db.alerts
        { a with
          is_acknowledged := true
          acknowledged_by := some userId
          acknowledged_at := some now } } := by
  simp only [acknowledge_alert, hfind]

/-- C9 witness: re-acknowledging the already-acknowledged fixture alert
as user 2 at time 9 records user 2 and time 9. -/
theorem acknowledge_last_write_wins_inst :
    (acknowledge_alert dbAcked 1 2 9).toOption.map (fun d =>
      d.alerts.map (fun a =>
        (a.is_acknowledged, a.acknowledged_by, a.acknowledged_at))) =
      some [(true, some 2, some 9)] := by
  rw [acknowledge_last_write_wins dbAcked 1 2 9 alertAcked rfl]
  decide

/-- C8 counterexample: the claim says a non-ADJUSTMENT request with
quantity at most 0 is rejected with no state change.  An OUT request
for minus 5 units against the 10-unit batch is accepted: the batch
grows to 15 and a transaction row is appended. -/
theorem negative_out_quantity_accepted :
    reqOutNeg5.transaction_type = TransactionType.OUT ∧
    reqOutNeg5.quantity ≤ 0 ∧
    (create_transaction dbTen reqOutNeg5 1 0).toOption.map (fun d =>
      (d.batches.map (fun b => b.quantity), d.transactions.length)) =
      some ([15], 1) := by
  refine ⟨by decide, by decide, ?_⟩
  decide

/-- C8 amended: the transaction processor performs no positivity
validation (schemas.py TransactionCreate constrains quantity only to
int).  A non-ADJUSTMENT request with quantity at most 0 is not
rejected; in particular an OUT request with quantity at most 0 against
an existing batch with nonnegative quantity succeeds, changes the batch
quantity by minus the request quantity (so it never decreases), and
appends one transaction row. -/
theorem out_nonpositive_quantity_not_rejected (db : DB)
    (req : TransactionCreate) (userId : Nat) (now : Int) (m : Medicine)
    (bid : Nat) (b : Batch)
    (hm : db.medicines.find? (fun x => x.id == req.medicine_id) = some m)
    (hb : req.batch_id = some bid)
    (hfind : db.batches.find? (fun x => x.id == bid) = some b)
    (hty : req.transaction_type = TransactionType.OUT)
    (hq : req.quantity ≤ 0) (hbq : 0 ≤ b.quantity) :
    create_transaction db req userId now = Except.ok { db with
      batches := updateBatch db.batches
        { b with quantity := b.quantity - req.quantity }
      transactions := db.transactions ++ [newTransaction req userId now] } ∧
    b.quantity ≤ b.quantity - req.quantity := by
  constructor
  · simp only [create_transaction, hm, hb, hfind, hty,
      if_neg (not_lt.mpr (hq.trans hbq))]
  · omega

/-- C8 witness for the amended claim: the minus-5 OUT request on the
10-unit batch is accepted and the batch quantity does not decrease. -/
theorem out_nonpositive_quantity_not_rejected_inst :
    create_transaction dbTen reqOutNeg5 1 0 = Except.ok { dbTen with
      batches := updateBatch dbTen.batches
        { batch10 with quantity := batch10.quantity - reqOutNeg5.quantity }
      transactions := dbTen.transactions ++ [newTransaction reqOutNeg5 1 0] } ∧
    batch10.quantity ≤ batch10.quantity - reqOutNeg5.quantity :=
  out_nonpositive_quantity_not_rejected dbTen reqOutNeg5 1 0 med1 1 batch10
    rfl rfl rfl rfl (by decide) (by decide)

/-- round2 is the identity on any rational that is an exact multiple
of one hundredth. -/
theorem round2_of_mul_int (q : ℚ) (k : ℤ) (h : q * 100 = (k : ℚ)) :
    round2 q = q := by
  rw [round2, h, round_intCast, eq_comm, eq_div_iff (by norm_num : (100 : ℚ) ≠ 0)]
  exact h

/-- The confidence formula times 100 is the integer min 95 (50 + n). -/
theorem conf_formula_mul (n : ℕ) :
    min ((95 : ℚ) / 100) (1 / 2 + (n : ℚ) / 100) * 100 =
      ((min 95 (50 + (n : ℤ)) : ℤ) : ℚ) := by
  rw [min_mul_of_nonneg _ _ (by norm_num : (0 : ℚ) ≤ 100)]
  push_cast
  congr 1 <;> ring

/-- Rounding the confidence formula to 2 decimals changes nothing:
its value is an exact multiple of one hundredth. -/
theorem round2_conf (n : ℕ) :
    round2 (min ((95 : ℚ) / 100) (1 / 2 + (n : ℚ) / 100)) =
      min ((95 : ℚ) / 100) (1 / 2 + (n : ℚ) / 100) :=
  round2_of_mul_int _ _ (conf_formula_mul n)

/-- Characterization of the confidence score of
calculate_demand_forecast for an existing medicine: the fallback 0.3
with no windowed OUT transactions, else min 0.95 (0.5 + n / 100). -/
theorem confidence_char (db : DB) (mid : Nat) (h now : Int) (m : Medicine)
    (hm : db.medicines.find? (fun x => x.id == mid) = some m) :
    (calculate_demand_forecast db mid h now).confidence_score =
      if (recentOutTransactions db mid now).length = 0 then (3 : ℚ) / 10
      else min ((95 : ℚ) / 100)
        (1 / 2 + ((recentOutTransactions db mid now).length : ℚ) / 100) := by
  rcases hts : recentOutTransactions db mid now with _ | ⟨t, ts⟩
  · simp only [calculate_demand_forecast, hm, hts, List.isEmpty_nil, if_true,
      List.length_nil]
  · simp only [calculate_demand_forecast, hm, hts, List.isEmpty_cons,
      Bool.false_eq_true, if_false, List.length_cons, Nat.succ_ne_zero]
    exact round2_conf (ts.length + 1)

/-- C5: for an existing medicine with no OUT transactions in the
trailing 90-day window, the forecast is the conservative fallback:
demand 30 percent of raw stock, confidence 0.3, reorder point
max 10 (truncated 20 percent of stock), recommended quantity
max 20 (truncated 50 percent of stock). -/
theorem forecast_fallback_heuristic (db : DB) (medicine_id : Nat)
    (horizon_days now : Int) (m : Medicine)
    (hm : db.medicines.find? (fun x => x.id == medicine_id) = some m)
    (hts : recentOutTransactions db medicine_id now = []) :
    calculate_demand_forecast db medicine_id horizon_days now =
      { forecasted_demand := (rawStock db.batches medicine_id : ℚ) * (3 / 10)
        confidence_score := 3 / 10
        reorder_point :=
          max 10 (truncQ ((rawStock db.batches medicine_id : ℚ) * (2 / 10)))
        recommended_quantity :=
          max 20 (truncQ ((rawStock db.batches medicine_id : ℚ) * (5 / 10)))
        reasoning := "No historical data available. Using conservative estimates." } := by
  simp only [calculate_demand_forecast, hm, hts, List.isEmpty_nil, if_true]

/-- C5 witness: with one medicine, zero batches and zero transactions,
the forecast is demand 0, confidence 0.3, reorder point 10, recommended
quantity 20. -/
theorem forecast_fallback_heuristic_inst :
    calculate_demand_forecast dbZeroStock 1 30 1000 =
      { forecasted_demand := 0
        confidence_score := 3 / 10
        reorder_point := 10
        recommended_quantity := 20
        reasoning := "No historical data available. Using conservative estimates." } := by
  have hs : rawStock dbZeroStock.batches 1 = 0 := rfl
  have ht : truncQ 0 = 0 := rfl
  rw [forecast_fallback_heuristic dbZeroStock 1 30 1000 med1 rfl rfl, hs]
  simp [ht]

/-- C6: forecast confidence is monotone in the count of windowed OUT
transactions for medicines with identical raw stock, and is bounded by
0.95 (for both of the compared runs). -/
theorem forecast_confidence_monotone_bounded (db1 db2 : DB) (mid1 mid2 : Nat)
    (h1 h2 now1 now2 : Int) (m1 m2 : Medicine)
    (hm1 : db1.medicines.find? (fun x => x.id == mid1) = some m1)
    (hm2 : db2.medicines.find? (fun x => x.id == mid2) = some m2)
    (hstock : rawStock db1.batches mid1 = rawStock db2.batches mid2)
    (hcount : (recentOutTransactions db2 mid2 now2).length ≤
              (recentOutTransactions db1 mid1 now1).length) :
    (calculate_demand_forecast db2 mid2 h2 now2).confidence_score ≤
      (calculate_demand_forecast db1 mid1 h1 now1).confidence_score ∧
    (calculate_demand_forecast db1 mid1 h1 now1).confidence_score ≤ 95 / 100 ∧
    (calculate_demand_forecast db2 mid2 h2 now2).confidence_score ≤ 95 / 100 := by
  rw [confidence_char db1 mid1 h1 now1 m1 hm1, confidence_char db2 mid2 h2 now2 m2 hm2]
  have hle : ∀ n : ℕ, (3 : ℚ) / 10 ≤ min ((95 : ℚ) / 100) (1 / 2 + (n : ℚ) / 100) := by
    intro n
    refine le_min (by norm_num) ?_
    have : (0 : ℚ) ≤ (n : ℚ) / 100 := by positivity
    linarith
  have hminle : ∀ n : ℕ, min ((95 : ℚ) / 100) (1 / 2 + (n : ℚ) / 100) ≤ 95 / 100 :=
    fun n => min_le_left _ _
  by_cases hb1 : (recentOutTransactions db1 mid1 now1).length = 0
  · have hb2 : (recentOutTransactions db2 mid2 now2).length = 0 := by omega
    rw [if_pos hb1, if_pos hb2]
    exact ⟨le_refl _, by norm_num, by norm_num⟩
  · by_cases hb2 : (recentOutTransactions db2 mid2 now2).length = 0
    · rw [if_neg hb1, if_pos hb2]
      exact ⟨hle _, hminle _, by norm_num⟩
    · rw [if_neg hb1, if_neg hb2]
      refine ⟨min_le_min (le_refl _) ?_, hminle _, hminle _⟩
      have hc := (Nat.cast_le (α := ℚ)).mpr hcount
      linarith

/-- C6 witness: a medicine with one windowed OUT transaction has
confidence at least that of one with none (identical zero stock), and
both are bounded by 0.95. -/
theorem forecast_confidence_monotone_bounded_inst :
    (calculate_demand_forecast dbZeroStock 1 30 1000).confidence_score ≤
      (calculate_demand_forecast dbOneOut 1 30 1000).confidence_score ∧
    (calculate_demand_forecast dbOneOut 1 30 1000).confidence_score ≤ 95 / 100 ∧
    (calculate_demand_forecast dbZeroStock 1 30 1000).confidence_score ≤ 95 / 100 :=
  forecast_confidence_monotone_bounded dbOneOut dbZeroStock 1 1 30 30 1000 1000
    med1 med1 rfl rfl rfl (by decide)

/-- C7: waste analytics totals the expired, damaged and recalled bucket
values with the returned bucket excluded, and the wastage rate is the
2-decimal rounding of total waste value over total sellable inventory
value times 100, which is 0 whenever that denominator is 0. -/
theorem waste_total_and_rate_spec (db : DB) (start_date end_date : Int) :
    (get_waste_analytics db start_date end_date).total_value =
      (get_waste_analytics db start_date end_date).expired.value +
      (get_waste_analytics db start_date end_date).damaged.value +
      (get_waste_analytics db start_date end_date).recalled.value ∧
    (get_waste_analytics db start_date end_date).wastage_rate_percent =
      round2 (if sellableInventoryValue db > 0 then
        (get_waste_analytics db start_date end_date).total_value /
          sellableInventoryValue db * 100
      else 0) ∧
    (sellableInventoryValue db = 0 →
      (get_waste_analytics db start_date end_date).wastage_rate_percent = 0) := by
  refine ⟨rfl, rfl, ?_⟩
  intro h
  have h2 : (get_waste_analytics db start_date end_date).wastage_rate_percent =
      round2 (if sellableInventoryValue db > 0 then
        (get_waste_analytics db start_date end_date).total_value /
          sellableInventoryValue db * 100
      else 0) := rfl
  rw [h2, h]
  norm_num [round2]

/-- C7 witness: on the empty store the sellable denominator is 0 and
the wastage rate is 0. -/
theorem waste_total_and_rate_spec_inst :
    sellableInventoryValue dbEmpty = 0 ∧
    (get_waste_analytics dbEmpty 0 90).wastage_rate_percent = 0 :=
  ⟨by decide, (waste_total_and_rate_spec dbEmpty 0 90).2.2 (by decide)⟩

/-- C2 (code behaviour at the failing input): on a store with one
active medicine and zero raw stock, the first low-stock run creates one
unacknowledged STOCK_OUT alert, and a second run with no intervening
ledger change creates another one, because the dedupe query looks for
an open LOW_STOCK alert while the alert being created is STOCK_OUT.
Both the twice-in-a-row idempotence and the at-most-one-open-alert-per
(entity, type) invariant of the claim fail. -/
theorem check_low_stock_not_idempotent_at_stock_out :
    (check_low_stock dbZeroStock).alerts.map (fun a =>
      (a.alert_type, a.medicine_id, a.is_acknowledged)) =
      [(AlertType.STOCK_OUT, some 1, false)] ∧
    (check_low_stock (check_low_stock dbZeroStock)).alerts.map (fun a =>
      (a.alert_type, a.medicine_id, a.is_acknowledged)) =
      [(AlertType.STOCK_OUT, some 1, false),
       (AlertType.STOCK_OUT, some 1, false)] := by
  constructor
  · decide
  · decide

/-- A low-stock step for a medicine with a different id neither adds an
alert attributed to mid nor changes the open-LOW_STOCK query for
mid. -/
theorem lowStockStep_other (batches : List Batch) (alerts : List Alert)
    (m : Medicine) (mid : Nat) (hne : m.id ≠ mid) :
    (lowStockStep batches alerts m).filter
        (fun a => decide (a.medicine_id = some mid)) =
      alerts.filter (fun a => decide (a.medicine_id = some mid)) ∧
    (lowStockStep batches alerts m).any (isOpenAlertFor AlertType.LOW_STOCK mid) =
      alerts.any (isOpenAlertFor AlertType.LOW_STOCK mid) := by
  simp only [lowStockStep]
  split_ifs with h1 h2
  · exact ⟨rfl, rfl⟩
  · constructor
    · rw [List.filter_append]
      have he : ([lowStockAlert m (rawStock batches m.id)]).filter
          (fun a => decide (a.medicine_id = some mid)) = [] := by
        simp [lowStockAlert, hne]
      rw [he, List.append_nil]
    · rw [List.any_append]
      have he : ([lowStockAlert m (rawStock batches m.id)]).any
          (isOpenAlertFor AlertType.LOW_STOCK mid) = false := by
        simp [lowStockAlert, isOpenAlertFor, hne]
      rw [he, Bool.or_false]
  · exact ⟨rfl, rfl⟩

/-- A low-stock sweep over medicines none of which carries id mid adds
no alert attributed to mid. -/
theorem lowStockSweep_other (batches : List Batch) (mid : Nat) :
    ∀ (meds : List Medicine) (alerts : List Alert),
      (∀ m ∈ meds, m.id ≠ mid) →
      (lowStockSweep batches meds alerts).filter
          (fun a => decide (a.medicine_id = some mid)) =
        alerts.filter (fun a => decide (a.medicine_id = some mid)) := by
  intro meds
  induction meds with
  | nil => intro alerts _; rfl
  | cons m0 rest ih =>
    intro alerts hall
    simp only [lowStockSweep]
    rw [ih _ (fun x hx => hall x (List.mem_cons_of_mem m0 hx))]
    exact (lowStockStep_other batches alerts m0 mid
      (hall m0 (List.mem_cons_self m0 rest))).1

/-- Main sweep lemma: when medicine ids are unique in the swept list,
the medicine is in the list, no LOW_STOCK alert is open for it and its
raw stock is below 20, the sweep appends exactly the one ladder alert
for that medicine. -/
theorem lowStockSweep_fires (batches : List Batch) (m : Medicine)
    (hlow : rawStock batches m.id < 20) :
    ∀ (meds : List Medicine) (alerts : List Alert),
      m ∈ meds → (meds.map (fun x => x.id)).Nodup →
      alerts.any (isOpenAlertFor AlertType.LOW_STOCK m.id) = false →
      (lowStockSweep batches meds alerts).filter
          (fun a => decide (a.medicine_id = some m.id)) =
        alerts.filter (fun a => decide (a.medicine_id = some m.id)) ++
          [lowStockAlert m (rawStock batches m.id)] := by
  intro meds
  induction meds with
  | nil => intro alerts h; cases h
  | cons m0 rest ih =>
    intro alerts hmem hnodup hopen
    rw [List.map_cons, List.nodup_cons] at hnodup
    rcases List.mem_cons.mp hmem with heq | hmem'
    · subst heq
      simp only [lowStockSweep]
      have hstep : lowStockStep batches alerts m =
          alerts ++ [lowStockAlert m (rawStock batches m.id)] := by
        simp only [lowStockStep]
        rw [if_neg (by simp [hopen]), if_pos hlow]
      rw [hstep]
      have hall : ∀ x ∈ rest, x.id ≠ m.id := by
        intro x hx he
        exact hnodup.1 (he ▸ List.mem_map_of_mem (fun y => y.id) hx)
      rw [lowStockSweep_other batches m.id rest _ hall, List.filter_append]
      congr 1
      simp [lowStockAlert]
    · have hne : m0.id ≠ m.id := by
        intro he
        exact hnodup.1 (he ▸ List.mem_map_of_mem (fun y => y.id) hmem')
      simp only [lowStockSweep]
      have hside := lowStockStep_other batches alerts m0 m.id hne
      rw [ih _ hmem' hnodup.2 (hside.2.trans hopen), hside.1]

/-- C3 amended: for the alerts-router low-stock rule (check_low_stock),
every active medicine with raw stock below 20, unique ids in the store
and no open LOW_STOCK alert gains exactly one new alert, whose severity
is critical when stock is 0 (type then STOCK_OUT), high when below 10,
else medium.  The inventory-router upload sweep does NOT follow this
ladder (see the counterexample). -/
theorem check_low_stock_single_alert (db : DB) (m : Medicine)
    (hmem : m ∈ db.medicines) (hact : m.is_active = true)
    (hnodup : (db.medicines.map (fun x => x.id)).Nodup)
    (hopen : db.alerts.any (isOpenAlertFor AlertType.LOW_STOCK m.id) = false)
    (hlow : rawStock db.batches m.id < 20) :
    (check_low_stock db).alerts.filter
        (fun a => decide (a.medicine_id = some m.id)) =
      db.alerts.filter (fun a => decide (a.medicine_id = some m.id)) ++
        [lowStockAlert m (rawStock db.batches m.id)] ∧
    (lowStockAlert m (rawStock db.batches m.id)).severity =
      (if rawStock db.batches m.id = 0 then "critical"
       else if rawStock db.batches m.id < 10 then "high" else "medium") ∧
    (lowStockAlert m (rawStock db.batches m.id)).alert_type =
      (if rawStock db.batches m.id = 0 then AlertType.STOCK_OUT
       else AlertType.LOW_STOCK) ∧
    (lowStockAlert m (rawStock db.batches m.id)).is_acknowledged = false := by
  refine ⟨?_, rfl, rfl, rfl⟩
  unfold check_low_stock
  refine lowStockSweep_fires db.batches m hlow _ db.alerts
    (List.mem_filter.mpr ⟨hmem, hact⟩) ?_ hopen
  exact hnodup.sublist
    (List.Sublist.map (fun x : Medicine => x.id)
      (List.filter_sublist db.medicines))

/-- C3 witness for the amended claim: on the 5-unit store the
alerts-router rule creates exactly one alert for medicine 1 and the
ladder gives severity high and type LOW_STOCK. -/
theorem check_low_stock_single_alert_inst :
    ((check_low_stock dbStock5).alerts.filter
        (fun a => decide (a.medicine_id = some med1.id)) =
      dbStock5.alerts.filter (fun a => decide (a.medicine_id = some med1.id)) ++
        [lowStockAlert med1 (rawStock dbStock5.batches med1.id)] ∧
    (lowStockAlert med1 (rawStock dbStock5.batches med1.id)).severity =
      (if rawStock dbStock5.batches med1.id = 0 then "critical"
       else if rawStock dbStock5.batches med1.id < 10 then "high" else "medium") ∧
    (lowStockAlert med1 (rawStock dbStock5.batches med1.id)).alert_type =
      (if rawStock dbStock5.batches med1.id = 0 then AlertType.STOCK_OUT
       else AlertType.LOW_STOCK) ∧
    (lowStockAlert med1 (rawStock dbStock5.batches med1.id)).is_acknowledged =
      false) ∧
    rawStock dbStock5.batches med1.id = 5 ∧
    lowStockSeverity 5 = "high" :=
  ⟨check_low_stock_single_alert dbStock5 med1 (by decide) rfl (by decide)
    rfl (by decide), rfl, rfl⟩

/-- C3 counterexample: the claim, read against the upload-time
low-stock sweep (inventory.py check_low_stock_alerts), is false: with
raw stock 5 (below 10) that sweep creates one LOW_STOCK alert of
severity medium, not high. -/
theorem upload_low_stock_severity_counterexample :
    rawStock dbStock5.batches med1.id = 5 ∧
    (check_low_stock_alerts dbStock5).alerts.map (fun a =>
      (a.alert_type, a.severity)) = [(AlertType.LOW_STOCK, "medium")] ∧
    ("medium" : String) ≠ "high" := by
  refine ⟨rfl, ?_, by decide⟩
  decide
